import Mathlib

/-!
Verification of the slide-position controller and style derivation of
`react-native-flatlist-slider` (src/index.tsx), shallowly embedded in Lean.
Pixel quantities (widths, offsets) are modelled as rationals; JavaScript
number pathologies reachable by the code (NaN, infinities from division by
zero) are modelled explicitly by the `JSNum` type.
-/

namespace FlatListSlider

/-- A JavaScript number as the scroll handler can observe or produce it:
a finite value, NaN, or a signed infinity. -/
inductive JSNum where
  | num (q : ℚ)
  | nan
  | posInf
  | negInf
deriving DecidableEq, Repr

/-- JavaScript division `a / b` of two finite numbers: division by zero
yields NaN for `0 / 0` and a signed infinity otherwise (the model has no
negative zero, so the sign is that of the numerator). -/
def jsDiv (a b : ℚ) : JSNum :=
  if b = 0 then
    if a = 0 then JSNum.nan
    else if 0 < a then JSNum.posInf
    else JSNum.negInf
  else JSNum.num (a / b)

/-- `Math.round`: round half toward positive infinity on finite values
(Mathlib round is floor of x + 1/2, which matches); NaN and the infinities
pass through. -/
def jsRound : JSNum → JSNum
  | JSNum.num q => JSNum.num ((round q : ℤ) : ℚ)
  | JSNum.nan => JSNum.nan
  | JSNum.posInf => JSNum.posInf
  | JSNum.negInf => JSNum.negInf

/-- JavaScript strict inequality `!==` between numbers: NaN is unequal to
everything, including itself. -/
def jsStrictNe : JSNum → JSNum → Bool
  | JSNum.nan, _ => true
  | _, JSNum.nan => true
  | JSNum.num a, JSNum.num b => a != b
  | JSNum.posInf, JSNum.posInf => false
  | JSNum.negInf, JSNum.negInf => false
  | _, _ => true

/-- The FlatList `onScroll` handler (src/index.tsx lines 242-249):
computes `index = Math.round(contentOffset.x / layoutMeasurement.width)`
and calls `setCurrent(index)` when `current !== index`. The result is
`some v` when `setCurrent(v)` is called and `none` otherwise. There is no
guard on the viewport width in the source. -/
def onScroll (offsetX viewportWidth : ℚ) (current : JSNum) : Option JSNum :=
  let index := jsRound (jsDiv offsetX viewportWidth)
  if jsStrictNe current index then some index else none

/-- The `current` state after the `onScroll` handler runs. -/
def scrollStep (offsetX viewportWidth : ℚ) (current : JSNum) : JSNum :=
  (onScroll offsetX viewportWidth current).getD current

/-- Initial `current` state: `useState(0)` (src/index.tsx line 133). -/
def initialCurrent : JSNum := JSNum.num 0

/-- The specified controller invariant: `currentIndex` is a finite integer
with `0 <= currentIndex < max(slideCount, 1)`. -/
def indexInvariant (slideCount : ℕ) (s : JSNum) : Prop :=
  ∃ k : ℤ, s = JSNum.num (k : ℚ) ∧ 0 ≤ k ∧ k < max (slideCount : ℤ) 1

/-- A `scrollToOffset` command sent to the FlatList ref. -/
structure ScrollCommand where
  animated : Bool
  offset : ℚ
deriving DecidableEq, Repr

/-- The auto-advance effect (src/index.tsx lines 195-214) calls
`setTimeout(cb, p.duration)` unconditionally: a timer with delay
`duration` is armed on every run of the effect, for every image count.
The source contains no slide-count guard. -/
def autoAdvanceTimer (duration : ℚ) ( _imagesLength : ℕ) : Option ℚ :=
  some duration

/-- The auto-advance timer callback (src/index.tsx lines 196-210): if the
ref is detached it returns without emitting; if `images.length - 1 ===
current` it scrolls to offset 0; otherwise it scrolls to
`slideWidth * (current + 1)`. The `animatedProp` parameter is `p.animated`,
which appears in the effect dependency array (line 214) but is never read
by the callback: both `scrollToOffset` calls hardcode `animated: true`
(lines 202 and 207). -/
def autoAdvanceFire (animatedProp : Bool) (refAttached : Bool)
    (imagesLength : ℕ) (current slideWidth : ℚ) : Option ScrollCommand :=
  if !refAttached then none
  else if (imagesLength : ℚ) - 1 = current then
    some { animated := true, offset := 0 }
  else
    some { animated := true, offset := slideWidth * (current + 1) }

/-- The `width` prop: either the literal string value `window` or an
explicit pixel width. -/
inductive WidthType where
  | window
  | pixels (x : ℚ)
deriving DecidableEq, Repr

/-- Resolved slide geometry. -/
structure Geometry where
  slideWidth : ℚ
  slideHeight : ℚ
deriving DecidableEq, Repr

/-- The `width` memo (src/index.tsx lines 135-138) together with
`styles.slide` (lines 142-146): resolved width is `windowWidth -
preAppliedSpacing` when the prop is the window source and the explicit
pixel value otherwise; height is `width / aspectRatio`. -/
def deriveGeometry (pWidth : WidthType)
    (windowWidth preAppliedSpacing aspectRatio : ℚ) : Geometry :=
  let w := match pWidth with
    | WidthType.window => windowWidth - preAppliedSpacing
    | WidthType.pixels x => x
  { slideWidth := w, slideHeight := w / aspectRatio }

/-- A partial React Native view style: only the layout fields relevant to
the indicator dots; an absent field is left to the renderer default. -/
structure PartialStyle where
  width : Option ℚ := none
  height : Option ℚ := none
  borderRadius : Option ℚ := none
deriving DecidableEq, Repr

/-- The style a dot actually renders with once defaults are applied. -/
structure ResolvedStyle where
  width : ℚ
  height : ℚ
  cornerRadius : ℚ
deriving DecidableEq, Repr

inductive IndicatorShape where
  | circle
  | square
  | rectangle
  | line
deriving DecidableEq, Repr

/-- Layout fields of `styles.badge` (src/index.tsx lines 156-160): only
`height: p.indicatorSize` matters here (the other fields are margin and
color). -/
def badge (indicatorSize : ℚ) : PartialStyle :=
  { height := some indicatorSize }

/-- The `indicatorShapes` memo (src/index.tsx lines 168-186), verbatim:
no shape other than `circle` sets a border radius, and only `line`
overrides the height. -/
def indicatorShapes (indicatorSize : ℚ) : IndicatorShape → PartialStyle
  | IndicatorShape.circle =>
      { width := some indicatorSize,
        borderRadius := some (indicatorSize / 2) }
  | IndicatorShape.square =>
      { width := some indicatorSize }
  | IndicatorShape.rectangle =>
      { width := some (indicatorSize * 1.5) }
  | IndicatorShape.line =>
      { width := some (indicatorSize * 1.5),
        height := some (indicatorSize * 0.5) }

/-- Field-wise override: the later entry of a style array wins where set. -/
def overrideField (base over : Option ℚ) : Option ℚ :=
  match over with
  | some v => some v
  | none => base

/-- The style array `[styles.badge, indicatorShapes[p.indicatorShape]]`
(src/index.tsx lines 273-274): later entries override earlier ones. -/
def mergeStyles (base over : PartialStyle) : PartialStyle :=
  { width := overrideField base.width over.width,
    height := overrideField base.height over.height,
    borderRadius := overrideField base.borderRadius over.borderRadius }

/-- Renderer defaults for a dot: an unset `borderRadius` renders square
corners (radius 0); width and height are always set by badge plus shape,
so their defaults are immaterial. -/
def resolveStyle (p : PartialStyle) : ResolvedStyle :=
  { width := p.width.getD 0,
    height := p.height.getD 0,
    cornerRadius := p.borderRadius.getD 0 }

/-- The style a pagination dot of the given shape renders with. -/
def indicatorStyle (indicatorSize : ℚ) (shape : IndicatorShape) : ResolvedStyle :=
  resolveStyle (mergeStyles (badge indicatorSize) (indicatorShapes indicatorSize shape))

/-- The `onPress` handler of the pagination dot at position `i`
(src/index.tsx lines 260-267): it emits `scrollToOffset` with
`animated: true` and `offset: slideWidth * i`, with no clamping. -/
def dotPressCommand (slideWidth : ℚ) (i : ℕ) : ScrollCommand :=
  { animated := true, offset := slideWidth * i }

/-- The rendered indicator row (src/index.tsx lines 259-278): one dot —
hence one press handler — per image index `i` in `[0, images.length - 1]`. -/
def indicatorCommands (slideWidth : ℚ) (imagesLength : ℕ) : List ScrollCommand :=
  (List.range imagesLength).map (dotPressCommand slideWidth)

/-- An entry of the `images` prop: a string (remote url or absolute
path), a numeric local-resource handle from `require`, or an
`ImageURISource` object. -/
inductive ImageEntry where
  | str (s : String)
  | res (n : ℤ)
  | obj (uri : Option String)
deriving DecidableEq, Repr

/-- The `images` memo (src/index.tsx lines 188-191): each string becomes
`\x7buri: image\x7d`; everything else passes through. -/
def normalizeImages (l : List ImageEntry) : List ImageEntry :=
  l.map fun image =>
    match image with
    | ImageEntry.str s => ImageEntry.obj (some s)
    | other => other

/-- Helper: with a nonzero viewport width the handler reduces to a plain
rounded division followed by the inequality test. -/
lemma onScroll_finite (offsetX vw current : ℚ) (hv : vw ≠ 0) :
    onScroll offsetX vw (JSNum.num current) =
      if current = ((round (offsetX / vw) : ℤ) : ℚ) then none
      else some (JSNum.num ((round (offsetX / vw) : ℤ) : ℚ)) := by
  by_cases h : current = ((round (offsetX / vw) : ℤ) : ℚ) <;>
    simp [onScroll, jsDiv, hv, jsRound, jsStrictNe, h]

/-- Claim C5: with a positive viewport width the handler computes
`idx = round(offsetX / viewportWidth)` (round half up) and calls
`setCurrent idx` exactly when `idx` differs from the current value. -/
theorem onScroll_rounds (offsetX vw current : ℚ) (hv : 0 < vw) :
    onScroll offsetX vw (JSNum.num current) =
      if current = ((round (offsetX / vw) : ℤ) : ℚ) then none
      else some (JSNum.num ((round (offsetX / vw) : ℤ) : ℚ)) :=
  onScroll_finite offsetX vw current (ne_of_gt hv)

/-- Witness for C5: at viewport width 300, offset 450 rounds half up to
index 2 and the handler sets the index from 0 to 2. -/
theorem onScroll_rounds_witness :
    0 < (300 : ℚ) ∧ onScroll 450 300 (JSNum.num 0) = some (JSNum.num 2) := by
  refine ⟨by norm_num, ?_⟩
  have h := onScroll_rounds 450 300 0 (by norm_num)
  rw [h]
  have hr : (round ((450 : ℚ) / 300) : ℤ) = 2 := by
    rw [round_eq]
    norm_num
  rw [hr]
  norm_num

/-- Counterexample to claim C3: a scroll notification with viewport width
0 and offset 0 is not a no-op — the unguarded division produces NaN, the
strict-inequality test treats NaN as different from the current value, and
`setCurrent NaN` is called, leaving the state NaN. -/
theorem zeroWidth_not_noop :
    onScroll 0 0 initialCurrent = some JSNum.nan ∧
      scrollStep 0 0 initialCurrent = JSNum.nan ∧
      JSNum.nan ≠ initialCurrent := by
  refine ⟨?_, ?_, by simp [initialCurrent]⟩ <;>
    simp [onScroll, scrollStep, jsDiv, jsRound, jsStrictNe, initialCurrent]

/-- Claim C3 amended: the handler has no zero-width guard. With viewport
width 0 it always calls `setCurrent` with a non-finite value: NaN when the
offset is 0, and a signed infinity otherwise. -/
theorem onScroll_zero_width (current offsetX : ℚ) :
    onScroll offsetX 0 (JSNum.num current) =
      some (if offsetX = 0 then JSNum.nan
            else if 0 < offsetX then JSNum.posInf else JSNum.negInf) := by
  by_cases h0 : offsetX = 0
  · simp [onScroll, jsDiv, jsRound, jsStrictNe, h0]
  · by_cases hp : 0 < offsetX <;>
      simp [onScroll, jsDiv, jsRound, jsStrictNe, h0, hp]

/-- Counterexample to claim C6: from the initial state, a scroll
notification with offset 900 at viewport width 300 and slide count 2 sets
`current` to 3, which violates `0 <= current < max(slideCount, 1)`. -/
theorem currentIndex_escapes_range :
    scrollStep 900 300 initialCurrent = JSNum.num 3 ∧
      ¬ indexInvariant 2 (scrollStep 900 300 initialCurrent) := by
  have h3 : (round ((900 : ℚ) / 300) : ℤ) = 3 := by
    rw [round_eq]
    norm_num
  have hs : scrollStep 900 300 initialCurrent = JSNum.num 3 := by
    rw [scrollStep, initialCurrent, onScroll_finite 900 300 0 (by norm_num), h3]
    norm_num
  refine ⟨hs, ?_⟩
  rintro ⟨k, hk, h0, h1⟩
  rw [hs] at hk
  have hk3 : (3 : ℚ) = (k : ℚ) := JSNum.num.inj hk
  have hk4 : (3 : ℤ) = k := by exact_mod_cast hk3
  rw [← hk4] at h1
  omega

/-- Claim C6 amended: the invariant holds for the initial state, and a
scroll notification at positive viewport width leaves the state satisfying
the invariant exactly when the rounded quotient lies in
`[0, max(slideCount, 1))` — arbitrary offsets can therefore drive the
index out of range, and the timer callback never writes the index at all. -/
theorem indexInvariant_characterization (n : ℕ) (offsetX vw current : ℚ)
    (hv : 0 < vw) :
    indexInvariant n initialCurrent ∧
      (indexInvariant n (scrollStep offsetX vw (JSNum.num current)) ↔
        0 ≤ round (offsetX / vw) ∧ round (offsetX / vw) < max (n : ℤ) 1) := by
  constructor
  · exact ⟨0, by simp [initialCurrent], le_refl 0, lt_max_of_lt_right one_pos⟩
  · have hstep : scrollStep offsetX vw (JSNum.num current) =
        JSNum.num ((round (offsetX / vw) : ℤ) : ℚ) := by
      rw [scrollStep, onScroll_finite offsetX vw current (ne_of_gt hv)]
      by_cases h : current = ((round (offsetX / vw) : ℤ) : ℚ) <;> simp [h]
    rw [hstep]
    constructor
    · rintro ⟨k, hk, h0, h1⟩
      have hk2 : ((round (offsetX / vw) : ℤ) : ℚ) = (k : ℚ) := JSNum.num.inj hk
      have hk3 : (round (offsetX / vw) : ℤ) = k := by exact_mod_cast hk2
      exact ⟨hk3 ▸ h0, hk3 ▸ h1⟩
    · rintro ⟨h0, h1⟩
      exact ⟨round (offsetX / vw), rfl, h0, h1⟩

/-- Witness for the amended C6: at slide count 2, a one-page scroll
(offset 300 at width 300) keeps the invariant, matching the rounded
quotient 1 lying in `[0, 2)`. -/
theorem indexInvariant_characterization_witness :
    0 < (300 : ℚ) ∧
      (indexInvariant 2 initialCurrent ∧
        (indexInvariant 2 (scrollStep 300 300 (JSNum.num 0)) ↔
          0 ≤ round ((300 : ℚ) / 300) ∧
            round ((300 : ℚ) / 300) < max (2 : ℤ) 1)) :=
  ⟨by norm_num, indexInvariant_characterization 2 300 300 0 (by norm_num)⟩

/-- Claim C1, failing input evaluated: with the `animated` prop set to
`false` (3 slides, current index 0, slide width 300), the fired timer
still emits a command with `animated = true` — the callback hardcodes the
flag instead of forwarding the configured one. -/
theorem autoAdvance_animated_hardcoded :
    autoAdvanceFire false true 3 0 300 =
      some { animated := true, offset := 300 } := by
  norm_num [autoAdvanceFire]

/-- Counterexample to claim C2: with a single slide the effect still arms
a timer (delay 3000), and the fired callback still emits a scroll
command, to offset 0. -/
theorem singleSlide_timer_fires :
    autoAdvanceTimer 3000 1 = some 3000 ∧
      autoAdvanceFire true true 1 0 300 =
        some { animated := true, offset := 0 } := by
  exact ⟨rfl, by norm_num [autoAdvanceFire]⟩

/-- Claim C2 amended: the effect arms the timer unconditionally, for
every image count including 0 and 1. On fire with one slide and current
index 0 it emits offset 0 (a visual no-op), and with an empty list it
emits offset `slideWidth * (current + 1)`. -/
theorem autoAdvance_unguarded (a : Bool) (d w c : ℚ) (n : ℕ)
    (hc : c ≠ -1) :
    autoAdvanceTimer d n = some d ∧
      autoAdvanceFire a true 1 0 w = some { animated := true, offset := 0 } ∧
      autoAdvanceFire a true 0 c w =
        some { animated := true, offset := w * (c + 1) } := by
  refine ⟨rfl, by norm_num [autoAdvanceFire], ?_⟩
  have h : ¬((-1 : ℚ) = c) := fun hh => hc hh.symm
  simp [autoAdvanceFire, h]

/-- Witness for the amended C2: at duration 3000, slide width 300 and
current index 0 with an empty list, the timer is armed and the callback
emits offset 300. -/
theorem autoAdvance_unguarded_witness :
    (0 : ℚ) ≠ -1 ∧
      (autoAdvanceTimer 3000 0 = some 3000 ∧
        autoAdvanceFire true true 1 0 300 =
          some { animated := true, offset := 0 } ∧
        autoAdvanceFire true true 0 0 300 =
          some { animated := true, offset := 300 * (0 + 1) }) :=
  ⟨by norm_num, autoAdvance_unguarded true 3000 300 0 0 (by norm_num)⟩

/-- Claim C4: for slide counts of at least 2 and any in-range current
index, the fired callback targets index `(current + 1) mod slideCount`:
from the last index the emitted offset is 0 (wrap to the first slide) and
otherwise it is `(current + 1) * slideWidth`. -/
theorem autoAdvance_wrap (a : Bool) (n c : ℕ) (w : ℚ)
    (hn : 2 ≤ n) (hc : c < n) :
    autoAdvanceFire a true n (c : ℚ) w =
      some { animated := true, offset := (((c + 1) % n : ℕ) : ℚ) * w } := by
  by_cases h : (n : ℚ) - 1 = (c : ℚ)
  · have hcn : c = n - 1 := by
      have h2 : ((c : ℤ) : ℚ) = ((n : ℤ) : ℚ) - 1 := by push_cast; push_cast at h; linarith
      have h3 : (c : ℤ) = (n : ℤ) - 1 := by exact_mod_cast h2
      omega
    have hc1 : c + 1 = n := by omega
    have hmod : (c + 1) % n = 0 := by rw [hc1, Nat.mod_self]
    rw [hmod]
    simp [autoAdvanceFire, h]
  · have hne : c ≠ n - 1 := by
      intro hcn
      apply h
      subst hcn
      push_cast [Nat.cast_sub (by omega : 1 ≤ n)]
      ring
    have hmod : (c + 1) % n = c + 1 := Nat.mod_eq_of_lt (by omega)
    rw [hmod]
    have hb : autoAdvanceFire a true n (c : ℚ) w =
        some { animated := true, offset := w * ((c : ℚ) + 1) } := by
      simp [autoAdvanceFire, h]
    rw [hb]
    simp only [Option.some.injEq, ScrollCommand.mk.injEq, true_and]
    push_cast
    ring

/-- Witness for C4: with 3 slides, slide width 300 and current index 2
(the last slide), the fired callback wraps: it emits offset 0. -/
theorem autoAdvance_wrap_witness :
    2 ≤ 3 ∧ 2 < 3 ∧
      autoAdvanceFire true true 3 ((2 : ℕ) : ℚ) 300 =
        some { animated := true, offset := 0 } := by
  refine ⟨by norm_num, by norm_num, ?_⟩
  have h := autoAdvance_wrap true 3 2 300 (by norm_num) (by norm_num)
  simpa using h

/-- Counterexample to claim C7: the dot-press handler formula performs no
clamping. Evaluated at position 3 with slide width 300 (slide count 3, so
3 is one past the last index), it emits offset 900, not the clamped
offset 2 * 300 = 600 the claim requires. -/
theorem dot_press_unclamped :
    dotPressCommand 300 3 = { animated := true, offset := 900 } ∧
      dotPressCommand 300 3 ≠ { animated := true, offset := 600 } := by
  constructor <;> norm_num [dotPressCommand]

/-- Claim C7 amended: the handlers never clamp, but one handler exists
per image index only, so every command the indicator row can emit has
offset `i * slideWidth` for some in-range `i`: the row has exactly
`slideCount` handlers and the handler at position `i` emits
`slideWidth * i`, always animated. -/
theorem indicatorCommands_in_range (w : ℚ) (n i : ℕ) (h : i < n) :
    (indicatorCommands w n).length = n ∧
      (indicatorCommands w n)[i]? =
        some { animated := true, offset := w * i } := by
  constructor
  · simp [indicatorCommands]
  · simp [indicatorCommands, dotPressCommand, List.getElem?_range, h]

/-- Witness for the amended C7: with 3 slides of width 300, the row has 3
handlers and the handler at position 2 emits offset 600. -/
theorem indicatorCommands_in_range_witness :
    2 < 3 ∧
      ((indicatorCommands 300 3).length = 3 ∧
        (indicatorCommands 300 3)[2]? =
          some { animated := true, offset := 300 * (2 : ℕ) }) :=
  ⟨by norm_num, indicatorCommands_in_range 300 3 2 (by norm_num)⟩

/-- Claim C8: the derived slide width is `windowWidth -
preAppliedSpacing` when the width prop is the window source and the
explicit pixel value otherwise; the height is `slideWidth / aspectRatio`;
in particular window width 400, spacing 20 and aspect ratio 2 give a
380 by 190 slide. -/
theorem deriveGeometry_spec (ww sp ar x : ℚ) :
    deriveGeometry WidthType.window ww sp ar =
      { slideWidth := ww - sp, slideHeight := (ww - sp) / ar } ∧
    deriveGeometry (WidthType.pixels x) ww sp ar =
      { slideWidth := x, slideHeight := x / ar } ∧
    deriveGeometry WidthType.window 400 20 2 =
      { slideWidth := 380, slideHeight := 190 } := by
  refine ⟨rfl, rfl, ?_⟩
  simp only [deriveGeometry, Geometry.mk.injEq]
  norm_num

/-- Claim C9: for every indicator size `s`, the rendered dot style is:
circle — width `s`, corner radius `s / 2`; square — width `s`, corner
radius 0; rectangle — width `s * 1.5`, corner radius 0; line — width
`s * 1.5`, height `s * 0.5`, corner radius 0; and the height is the badge
height `s` for every shape except line, which overrides it. -/
theorem indicatorStyle_table (s : ℚ) :
    indicatorStyle s IndicatorShape.circle =
      { width := s, height := s, cornerRadius := s / 2 } ∧
    indicatorStyle s IndicatorShape.square =
      { width := s, height := s, cornerRadius := 0 } ∧
    indicatorStyle s IndicatorShape.rectangle =
      { width := s * 1.5, height := s, cornerRadius := 0 } ∧
    indicatorStyle s IndicatorShape.line =
      { width := s * 1.5, height := s * 0.5, cornerRadius := 0 } :=
  ⟨rfl, rfl, rfl, rfl⟩

/-- Claim C10: normalization preserves the length and order of the image
list; the entry at any position becomes `\x7buri: s\x7d` when it was the
string `s` and is passed through unchanged otherwise. -/
theorem normalizeImages_spec (l : List ImageEntry) (i : ℕ)
    (h : i < l.length) :
    (normalizeImages l).length = l.length ∧
      (∀ s, l.get ⟨i, h⟩ = ImageEntry.str s →
        (normalizeImages l)[i]? = some (ImageEntry.obj (some s))) ∧
      ((∀ s, l.get ⟨i, h⟩ ≠ ImageEntry.str s) →
        (normalizeImages l)[i]? = some (l.get ⟨i, h⟩)) := by
  refine ⟨by simp [normalizeImages], ?_, ?_⟩
  · intro s hs
    simp [normalizeImages, List.getElem?_eq_getElem h]
    rw [show l[i] = l.get ⟨i, h⟩ from rfl, hs]
  · intro hs
    simp [normalizeImages, List.getElem?_eq_getElem h]
    rw [show l[i] = l.get ⟨i, h⟩ from rfl]
    rcases hget : l.get ⟨i, h⟩ with s | m | u
    · exact absurd hget (hs s)
    · rfl
    · rfl

/-- Witness for C10: on the two-element list of the string entry `a` and
the resource handle 5, position 0 is rewritten to a uri object. -/
theorem normalizeImages_spec_witness :
    (0 : ℕ) < ([ImageEntry.str "a", ImageEntry.res 5] : List ImageEntry).length ∧
      (normalizeImages [ImageEntry.str "a", ImageEntry.res 5])[0]? =
        some (ImageEntry.obj (some "a")) :=
  ⟨by norm_num,
    (normalizeImages_spec [ImageEntry.str "a", ImageEntry.res 5] 0
      (by norm_num)).2.1 "a" rfl⟩

end FlatListSlider
